import Mathlib

/-!
Verification development for the Mode7 BLE racer synchronization core.

The definitions below are a shallow embedding of the C sources:
the fixed-point math header (`game/include/math.h`), the car physics
engine (`physics.c`), the CRC-16 routine (`utils.c`) and the protocol
layer (`protocol.c`).  Machine integers are embedded as `Nat`/`Int`
with wraparound written out explicitly (`u32`, `toI32`, ...); C `float`
values are modelled exactly over `ℚ`; fallible computations return
`Option`.
-/

namespace Mode7

/-! ## Machine-integer helpers -/

/-- Reduce an integer to the two's-complement `int32_t` range
`[-2^31, 2^31)`, as a C cast to `int32_t` does. -/
def toI32 (z : ℤ) : ℤ := (z + 2 ^ 31) % 2 ^ 32 - 2 ^ 31

/-- Reduce an integer to the two's-complement `int8_t` range
`[-128, 128)`, as a C cast to `int8_t` does. -/
def toI8 (z : ℤ) : ℤ := (z + 2 ^ 7) % 2 ^ 8 - 2 ^ 7

/-- Reduce a natural number modulo `2^32` (`uint32_t` arithmetic). -/
def u32 (n : ℕ) : ℕ := n % 2 ^ 32

/-- `uint32_t` subtraction `a - b` for operands already below `2^32`. -/
def sub32 (a b : ℕ) : ℕ := u32 (a + 2 ^ 32 - u32 b)

/-- The byte (two's complement) that stores an `int8_t` value. -/
def byteOfI8 (z : ℤ) : ℕ := (z % 2 ^ 8).toNat

/-- The `int8_t` value stored by a byte (two's complement). -/
def i8OfByte (b : ℕ) : ℤ := if b < 2 ^ 7 then (b : ℤ) else (b : ℤ) - 2 ^ 8

/-- Truncation of a rational toward zero, as a C cast from `float`
to a signed integer type truncates. -/
def truncQ (q : ℚ) : ℤ := q.num.tdiv q.den

/-- Little-endian bytes of a `uint16_t` value. -/
def u16Bytes (n : ℕ) : List ℕ := [n % 256, n / 256 % 256]

/-- Little-endian bytes of a `uint32_t` value. -/
def u32Bytes (n : ℕ) : List ℕ :=
  [n % 256, n / 256 % 256, n / 2 ^ 16 % 256, n / 2 ^ 24 % 256]

/-- Little-endian bytes of an `int32_t` value (two's complement). -/
def i32Bytes (z : ℤ) : List ℕ := u32Bytes (z % 2 ^ 32).toNat

/-! ## CRC-16 (`utils.c`, `crc16`)

```c
uint16_t crc16(const uint8_t *data, size_t length) {
    uint16_t crc = 0xFFFF;
    for (size_t i = 0; i < length; i++) {
        crc ^= data[i];
        for (int j = 0; j < 8; j++) {
            if (crc & 0x0001) { crc = (crc >> 1) ^ 0xA001; }
            else              { crc = crc >> 1; }
        }
    }
    return crc;
}
``` -/

/-- One bit round of the CRC-16 loop body. -/
def crcRound (c : ℕ) : ℕ := if c % 2 = 1 then c / 2 ^^^ 0xA001 else c / 2

/-- Absorb one byte: XOR it into the CRC state, then run 8 bit rounds. -/
def crcByteStep (c b : ℕ) : ℕ := crcRound^[8] (c ^^^ b)

/-- CRC-16 of a byte sequence, initial state `0xFFFF`. -/
def crc16 (data : List ℕ) : ℕ := data.foldl crcByteStep 0xFFFF

/-! ## Fixed-point arithmetic (`math.h`) -/

/-- `FIXED16_ONE`: the 16.16 fixed-point representation of 1. -/
def FIXED16_ONE : ℤ := 65536

/-- `fixed_mul`: `(fixed16_t)(((int64_t)a * b) >> 16)`.  The product is
widened to 64 bits, arithmetically shifted right by 16 (floor division),
and the result is cast back to `int32_t` (two's-complement wrap). -/
def fixed_mul (a b : ℤ) : ℤ := toI32 (Int.fdiv (a * b) (2 ^ 16))

/-- The unguarded C expression `(fixed16_t)(((int64_t)a << 16) / b)`
in the body of `fixed_div`.  C 64-bit division truncates toward zero;
`Int.tdiv _ 0 = 0` is Lean's convention and is never relied upon by
any theorem below (the source's behavior there is undefined). -/
def fixed_div_expr (a b : ℤ) : ℤ := toI32 (Int.tdiv (a * 2 ^ 16) b)

/-- `fixed_div`: the source computes `((int64_t)a << 16) / b` with no
guard on `b`; C integer division by zero is undefined behavior, which
the embedding makes explicit by returning `none` exactly when `b = 0`. -/
def fixed_div (a b : ℤ) : Option ℤ :=
  if b = 0 then none else some (fixed_div_expr a b)

/-- One Newton-Raphson iteration of `fixed_sqrt`:
`temp = fixed_div(x, result); result = (result + temp) >> 1;`
(`int32_t` addition wraps; `>> 1` is an arithmetic shift). -/
def sqrtStep (x r : ℤ) : ℤ := Int.fdiv (toI32 (r + fixed_div_expr x r)) 2

/-- `fixed_sqrt`: returns 0 for non-positive input, otherwise 16
Newton-Raphson iterations seeded with the input itself. -/
def fixed_sqrt (x : ℤ) : ℤ := if x ≤ 0 then 0 else (sqrtStep x)^[16] x

/-! ## 2D vectors (`math.h`) -/

/-- `vec2_t`: a pair of `fixed16_t`. -/
structure vec2 where
  x : ℤ
  y : ℤ
  deriving DecidableEq, Repr

/-- `vec2_add` (`int32_t` component addition, two's-complement wrap). -/
def vec2_add (a b : vec2) : vec2 := ⟨toI32 (a.x + b.x), toI32 (a.y + b.y)⟩

/-- `vec2_sub` (`int32_t` component subtraction, two's-complement wrap). -/
def vec2_sub (a b : vec2) : vec2 := ⟨toI32 (a.x - b.x), toI32 (a.y - b.y)⟩

/-- `vec2_scale`: componentwise `fixed_mul` by a scalar. -/
def vec2_scale (v : vec2) (s : ℤ) : vec2 := ⟨fixed_mul v.x s, fixed_mul v.y s⟩

/-- `vec2_dot`: `fixed_mul(a.x,b.x) + fixed_mul(a.y,b.y)`
(`int32_t` addition, two's-complement wrap). -/
def vec2_dot (a b : vec2) : ℤ := toI32 (fixed_mul a.x b.x + fixed_mul a.y b.y)

/-- `vec2_length`: `fixed_sqrt(fixed_mul(v.x,v.x) + fixed_mul(v.y,v.y))`. -/
def vec2_length (v : vec2) : ℤ :=
  fixed_sqrt (toI32 (fixed_mul v.x v.x + fixed_mul v.y v.y))

/-! ## Physics (`physics.h`, `physics.c`) -/

/-- `PHYSICS_WALL_DISTANCE = FLOAT_TO_FIXED16(4.0f)`. -/
def PHYSICS_WALL_DISTANCE : ℤ := 262144

/-- `PHYSICS_COLLISION_ELASTICITY = FLOAT_TO_FIXED16(0.75f)`. -/
def PHYSICS_COLLISION_ELASTICITY : ℤ := 49152

/-- `car_physics_t`. -/
structure car_physics where
  position : vec2
  velocity : vec2
  acceleration : vec2
  heading : ℤ
  angular_vel : ℤ
  speed : ℤ
  mass : ℤ
  drag : ℤ
  friction : ℤ
  deriving DecidableEq

/-- `checkpoint_t`.  The `lap_count` field is read and written by
`protocol.c` (`world->checkpoints[i].lap_count`); the copy of
`physics.h` in the tree omits it, so it is included here as the
protocol code requires. -/
structure checkpoint where
  position : vec2
  radius : ℤ
  passed : Bool
  index : ℕ
  lap_count : ℕ
  deriving DecidableEq

/-- `physics_world_t` (`PHYSICS_MAX_CARS = 2`, up to 16 checkpoints;
`checkpoints` is total over `ℕ` with only indices below 16 meaningful).
`total_laps` is read by `protocol_pack_game_state`. -/
structure physics_world where
  cars : Fin 2 → car_physics
  checkpoints : ℕ → checkpoint
  checkpoint_count : ℕ
  current_checkpoint : Fin 2 → ℕ
  race_time : Fin 2 → ℕ
  race_finished : Fin 2 → Bool
  track_length : ℤ
  total_laps : ℕ

/-- `physics_check_track_collision`: circular wall at
`PHYSICS_WALL_DISTANCE` from the origin; on collision yields the
contact normal and penetration depth (the C function writes them
through out-pointers, and its divisor `distance_from_center` is
nonzero on both collision branches). -/
def physics_check_track_collision (position : vec2) : Option (vec2 × ℤ) :=
  let distance_from_center := vec2_length position
  if PHYSICS_WALL_DISTANCE < distance_from_center then
    some (vec2_scale position (fixed_div_expr FIXED16_ONE distance_from_center),
          distance_from_center - PHYSICS_WALL_DISTANCE)
  else if distance_from_center < -PHYSICS_WALL_DISTANCE then
    some (vec2_scale position (-fixed_div_expr FIXED16_ONE distance_from_center),
          -PHYSICS_WALL_DISTANCE - distance_from_center)
  else
    none

/-- `physics_check_car_collision`: bounding circles with
`min_distance = INT_TO_FIXED16(100)`, compared on squared distances. -/
def physics_check_car_collision (car1 car2 : car_physics) : Bool :=
  let delta := vec2_sub car1.position car2.position
  let distance_squared := vec2_dot delta delta
  let min_distance : ℤ := 6553600
  let min_distance_squared := fixed_mul min_distance min_distance
  distance_squared < min_distance_squared

/-- `physics_check_checkpoint_collision`: false for an already-passed
checkpoint, else squared distance strictly below squared radius. -/
def physics_check_checkpoint_collision (car : car_physics) (cp : checkpoint) : Bool :=
  if cp.passed then false
  else
    let delta := vec2_sub car.position cp.position
    let distance_squared := vec2_dot delta delta
    let radius_squared := fixed_mul cp.radius cp.radius
    distance_squared < radius_squared

/-- The car-track block of `resolve_collisions` for one car:
```c
if (physics_check_track_collision(car->position, &normal, &penetration)) {
    vec2_t correction = vec2_scale(normal, penetration);
    car->position = vec2_add(car->position, correction);
    fixed16_t normal_vel = vec2_dot(car->velocity, normal);
    if (normal_vel < 0) {
        vec2_t reflected = vec2_sub(car->velocity,
                                    vec2_scale(normal, fixed_mul(FIXED16_ONE * 2, normal_vel)));
        car->velocity = vec2_scale(reflected, PHYSICS_COLLISION_ELASTICITY);
    }
}
``` -/
def resolve_track_collision (car : car_physics) : car_physics :=
  match physics_check_track_collision car.position with
  | none => car
  | some (normal, penetration) =>
    let correction := vec2_scale normal penetration
    let position := vec2_add car.position correction
    let normal_vel := vec2_dot car.velocity normal
    let velocity :=
      if normal_vel < 0 then
        vec2_scale (vec2_sub car.velocity
          (vec2_scale normal (fixed_mul (FIXED16_ONE * 2) normal_vel)))
          PHYSICS_COLLISION_ELASTICITY
      else car.velocity
    { car with position := position, velocity := velocity }

/-- `resolve_collisions`: each car against the track wall, then the
single car pair (0,1) against each other (velocity swap and symmetric
separation by `INT_TO_FIXED16(50)` along the connecting line; the
divisor `vec2_length(delta)` is unguarded in the source). -/
def resolve_collisions (world : physics_world) : physics_world :=
  let cars := fun i => resolve_track_collision (world.cars i)
  let c0 := cars 0
  let c1 := cars 1
  if physics_check_car_collision c0 c1 then
    let temp := c0.velocity
    let delta := vec2_sub c0.position c1.position
    let direction := vec2_scale delta (fixed_div_expr FIXED16_ONE (vec2_length delta))
    let c0 := { c0 with velocity := c1.velocity,
                        position := vec2_add c0.position (vec2_scale direction 3276800) }
    let c1 := { c1 with velocity := temp,
                        position := vec2_sub c1.position (vec2_scale direction 3276800) }
    { world with cars := fun i => if i = 0 then c0 else c1 }
  else
    { world with cars := cars }

/-- `update_checkpoint_progress` for car `i`: if the expected
checkpoint index is in range and the (not yet passed) checkpoint is
entered, mark it passed and advance the index; when the advanced index
reaches `checkpoint_count`, reset it to 0 and clear every `passed`
flag.  No lap counter exists in the world state and none is touched. -/
def update_checkpoint_progress (world : physics_world) (i : Fin 2) : physics_world :=
  let current := world.current_checkpoint i
  if current ≥ world.checkpoint_count then world
  else
    let cp := world.checkpoints current
    if physics_check_checkpoint_collision (world.cars i) cp then
      let checkpoints := Function.update world.checkpoints current { cp with passed := true }
      let current_checkpoint := Function.update world.current_checkpoint i (current + 1)
      if current + 1 ≥ world.checkpoint_count then
        { world with
            checkpoints := fun n => { checkpoints n with passed := false },
            current_checkpoint := Function.update current_checkpoint i 0 }
      else
        { world with checkpoints := checkpoints, current_checkpoint := current_checkpoint }
    else world

/-! ## Protocol (`protocol.c`, packet layouts from `ble.h`) -/

/-- `#define PROTOCOL_INPUT_BUFFER_SIZE 64` (`protocol.h`): the ring
capacity. -/
def PROTOCOL_INPUT_BUFFER_SIZE : ℕ := 64

/-- `#define PROTOCOL_MAX_LATENCY_SAMPLES 100` (`protocol.h`): the
rolling latency window. -/
def PROTOCOL_MAX_LATENCY_SAMPLES : ℕ := 100

/-- `input_packet_t` (packed struct, 13 bytes on the wire). -/
structure input_packet where
  player_id : ℕ
  throttle : ℤ
  brake : ℤ
  steering : ℤ
  buttons : ℕ
  frame_number : ℕ
  timestamp : ℕ
  checksum : ℕ
  deriving DecidableEq

/-- The all-zero `input_packet_t` (`memset(..., 0, ...)`). -/
def zero_input_packet : input_packet := ⟨0, 0, 0, 0, 0, 0, 0, 0⟩

/-- The 13-byte little-endian wire layout of `input_packet_t`:
`player_id, throttle, brake, steering, buttons, frame_number (u32),
timestamp (u16), checksum (u16)`. -/
def encode_input (p : input_packet) : List ℕ :=
  [p.player_id % 256, byteOfI8 p.throttle, byteOfI8 p.brake, byteOfI8 p.steering,
   p.buttons % 256] ++ u32Bytes p.frame_number ++ u16Bytes p.timestamp ++ u16Bytes p.checksum

/-- Byte `i` of a byte list (0 beyond the end). -/
def byteAt (l : List ℕ) (i : ℕ) : ℕ := l.getD i 0

/-- `uint16_t` field at byte offset `i` (little endian). -/
def u16At (l : List ℕ) (i : ℕ) : ℕ := byteAt l i + 256 * byteAt l (i + 1)

/-- `uint32_t` field at byte offset `i` (little endian). -/
def u32At (l : List ℕ) (i : ℕ) : ℕ :=
  byteAt l i + 256 * byteAt l (i + 1) + 2 ^ 16 * byteAt l (i + 2) + 2 ^ 24 * byteAt l (i + 3)

/-- `int32_t` field at byte offset `i` (little endian, two's complement). -/
def i32At (l : List ℕ) (i : ℕ) : ℤ := toI32 (u32At l i)

/-- Read an `input_packet_t` from its 13 wire bytes. -/
def decode_input (bytes : List ℕ) : input_packet :=
  { player_id := byteAt bytes 0
    throttle := i8OfByte (byteAt bytes 1)
    brake := i8OfByte (byteAt bytes 2)
    steering := i8OfByte (byteAt bytes 3)
    buttons := byteAt bytes 4
    frame_number := u32At bytes 5
    timestamp := u16At bytes 9
    checksum := u16At bytes 11 }

/-- `game_state_packet_t` (packed struct, 33 bytes on the wire). -/
structure game_state_packet where
  game_state : ℕ
  player_id : ℕ
  frame_number : ℕ
  car_position_x : ℤ
  car_position_y : ℤ
  car_velocity_x : ℤ
  car_velocity_y : ℤ
  car_heading : ℤ
  checkpoint_index : ℕ
  lap_count : ℕ
  race_finished : ℕ
  timestamp : ℕ
  checksum : ℕ
  deriving DecidableEq

/-- Read a `game_state_packet_t` from its 33 wire bytes. -/
def decode_game_state (bytes : List ℕ) : game_state_packet :=
  { game_state := byteAt bytes 0
    player_id := byteAt bytes 1
    frame_number := u32At bytes 2
    car_position_x := i32At bytes 6
    car_position_y := i32At bytes 10
    car_velocity_x := i32At bytes 14
    car_velocity_y := i32At bytes 18
    car_heading := i32At bytes 22
    checkpoint_index := byteAt bytes 26
    lap_count := byteAt bytes 27
    race_finished := byteAt bytes 28
    timestamp := u16At bytes 29
    checksum := u16At bytes 31 }

/-- `input_state_t`: normalized float inputs, modelled over `ℚ`. -/
structure input_state where
  throttle : ℚ
  brake : ℚ
  steering : ℚ
  buttons : ℕ

/-- `protocol_state_t`. -/
structure protocol_state where
  is_host : Bool
  is_connected : Bool
  local_player_id : ℕ
  remote_player_id : ℕ
  current_frame : ℕ
  last_received_frame : ℕ
  latency_samples : ℕ
  avg_latency : ℕ
  jitter : ℕ
  deriving DecidableEq

/-- `input_buffer_t`: 64 slots (indices are taken mod 64), a start
frame and a logical count. -/
structure input_buffer where
  inputs : ℕ → input_packet
  start_frame : ℕ
  count : ℕ

/-- The protocol globals: `protocol_state`, `local_input_buffer`,
`remote_input_buffer`. -/
structure protocol_sim where
  state : protocol_state
  local_input_buffer : input_buffer
  remote_input_buffer : input_buffer

/-- The zeroed input buffer (`memset(..., 0, ...)`). -/
def zero_input_buffer : input_buffer := ⟨fun _ => zero_input_packet, 0, 0⟩

/-- `protocol_init`: zero all state, then set `is_host` and the two
player ids from it. -/
def protocol_init (is_host : Bool) : protocol_sim :=
  { state :=
      { is_host := is_host
        is_connected := false
        local_player_id := if is_host then 0 else 1
        remote_player_id := if is_host then 1 else 0
        current_frame := 0
        last_received_frame := 0
        latency_samples := 0
        avg_latency := 0
        jitter := 0 }
    local_input_buffer := zero_input_buffer
    remote_input_buffer := zero_input_buffer }

/-- `protocol_reset`: zero the frame counters, the latency statistics
and both input buffers (connection flags and player ids are kept). -/
def protocol_reset (s : protocol_sim) : protocol_sim :=
  { state :=
      { s.state with
          current_frame := 0
          last_received_frame := 0
          latency_samples := 0
          avg_latency := 0
          jitter := 0 }
    local_input_buffer := zero_input_buffer
    remote_input_buffer := zero_input_buffer }

/-- `protocol_pack_input`: quantize the float inputs
(`throttle ? 100 : 0`, `brake ? 100 : 0`,
`(int8_t)(steering * 100.0f)`), repack the four button bits, stamp the
current frame and the millisecond timestamp, and append a CRC-16 over
the 11 preceding bytes.  `time_ms` stands for
`esp_timer_get_time() / 1000`.  Modelled from the spec for the missing
header constants: `BUTTON_A`, `BUTTON_B`, `BUTTON_START` and
`BUTTON_SELECT` are taken to be bits 0..3, matching the packed
positions `0x01`, `0x02`, `0x04`, `0x08`. -/
def protocol_pack_input (st : protocol_state) (time_ms : ℕ) (input : input_state) :
    input_packet :=
  let base : input_packet :=
    { player_id := st.local_player_id
      throttle := if input.throttle ≠ 0 then 100 else 0
      brake := if input.brake ≠ 0 then 100 else 0
      steering := toI8 (truncQ (input.steering * 100))
      buttons :=
        (if input.buttons &&& 1 ≠ 0 then 1 else 0) +
        (if input.buttons &&& 2 ≠ 0 then 2 else 0) +
        (if input.buttons &&& 4 ≠ 0 then 4 else 0) +
        (if input.buttons &&& 8 ≠ 0 then 8 else 0)
      frame_number := st.current_frame
      timestamp := time_ms % 2 ^ 16
      checksum := 0 }
  { base with checksum := crc16 ((encode_input base).take 11) }

/-- The two drop conditions of the unpack functions. -/
inductive unpack_error where
  | WrongPlayerId
  | ChecksumMismatch
  deriving DecidableEq

/-- `protocol_unpack_input` on the received wire bytes: reject a packet
whose player id is not the expected remote id, then reject on CRC
mismatch over the first 11 bytes; only then write the float outputs
(`dest`) and store the packet in the remote input buffer when its frame
lies inside `[start_frame, start_frame + 64)`. -/
def protocol_unpack_input (st : protocol_state) (bytes : List ℕ)
    (dest : ℚ × ℚ × ℚ) (buf : input_buffer) :
    Option unpack_error × (ℚ × ℚ × ℚ) × input_buffer :=
  let packet := decode_input bytes
  if packet.player_id ≠ st.remote_player_id then
    (some .WrongPlayerId, dest, buf)
  else if packet.checksum ≠ crc16 (bytes.take 11) then
    (some .ChecksumMismatch, dest, buf)
  else
    let dest := ((packet.throttle : ℚ) / 100, (packet.brake : ℚ) / 100,
                 (packet.steering : ℚ) / 100)
    let buffer_index := sub32 packet.frame_number buf.start_frame % PROTOCOL_INPUT_BUFFER_SIZE
    let buf :=
      if buf.start_frame ≤ packet.frame_number ∧
          packet.frame_number < u32 (buf.start_frame + PROTOCOL_INPUT_BUFFER_SIZE) then
        { buf with
            inputs := Function.update buf.inputs buffer_index packet
            count := max buf.count (u32 (sub32 packet.frame_number buf.start_frame + 1)) }
      else buf
    (none, dest, buf)

/-- `protocol_unpack_game_state` on the received wire bytes: the same
two drop conditions (player id, then CRC over the first 31 bytes); on
success overwrite the remote car's position/velocity/heading, mark the
packet's checkpoint passed (when in range) with its lap count, and fold
the measured latency into the rolling average.  `time_ms` stands for
`esp_timer_get_time() / 1000`. -/
def protocol_unpack_game_state (st : protocol_state) (bytes : List ℕ)
    (car : car_physics) (world : physics_world) (time_ms : ℕ) :
    Option unpack_error × car_physics × physics_world × protocol_state :=
  let packet := decode_game_state bytes
  if packet.player_id ≠ st.remote_player_id then
    (some .WrongPlayerId, car, world, st)
  else if packet.checksum ≠ crc16 (bytes.take 31) then
    (some .ChecksumMismatch, car, world, st)
  else
    let car :=
      { car with
          position := ⟨packet.car_position_x, packet.car_position_y⟩
          velocity := ⟨packet.car_velocity_x, packet.car_velocity_y⟩
          heading := packet.car_heading }
    let world :=
      if packet.checkpoint_index < world.checkpoint_count then
        { world with
            checkpoints := Function.update world.checkpoints packet.checkpoint_index
              { world.checkpoints packet.checkpoint_index with
                  passed := true, lap_count := packet.lap_count } }
      else world
    let latency := sub32 (u32 time_ms) packet.timestamp
    let st :=
      if st.latency_samples < PROTOCOL_MAX_LATENCY_SAMPLES then
        let latency_samples := st.latency_samples + 1
        { st with
            latency_samples := latency_samples
            avg_latency :=
              u32 (st.avg_latency * (latency_samples - 1) + latency) / latency_samples }
      else
        { st with
            avg_latency :=
              u32 (st.avg_latency * (PROTOCOL_MAX_LATENCY_SAMPLES - 1) + latency) /
                PROTOCOL_MAX_LATENCY_SAMPLES }
    (none, car, world, { st with last_received_frame := packet.frame_number })

/-- `protocol_store_local_input`: pack the current input (stamping the
global current frame) into slot `(frame - start_frame) % 64` of the
local buffer when `frame` lies inside `[start_frame, start_frame + 64)`,
raising the high-water `count`. -/
def protocol_store_local_input (st : protocol_state) (time_ms : ℕ) (input : input_state)
    (frame : ℕ) (buf : input_buffer) : input_buffer :=
  let buffer_index := sub32 frame buf.start_frame % PROTOCOL_INPUT_BUFFER_SIZE
  if buf.start_frame ≤ frame ∧ frame < u32 (buf.start_frame + PROTOCOL_INPUT_BUFFER_SIZE) then
    { buf with
        inputs := Function.update buf.inputs buffer_index (protocol_pack_input st time_ms input)
        count := max buf.count (u32 (sub32 frame buf.start_frame + 1)) }
  else buf

/-- `protocol_predict_remote_input` over the remote input buffer: the
caller's `predicted_input` out-parameter is passed in as `predicted`
(fields the function does not assign keep their previous values). -/
def protocol_predict_remote_input (buf : input_buffer) (frame : ℕ)
    (predicted : input_packet) : input_packet :=
  if buf.count = 0 then
    { predicted with throttle := 0, brake := 0, steering := 0, buttons := 0,
                     frame_number := frame }
  else
    let buffer_index := sub32 frame buf.start_frame % PROTOCOL_INPUT_BUFFER_SIZE
    if frame < buf.start_frame then
      { predicted with throttle := 0, brake := 0, steering := 0, buttons := 0,
                       frame_number := frame }
    else if frame < u32 (buf.start_frame + buf.count) then
      buf.inputs buffer_index
    else
      let last_frame := sub32 (u32 (buf.start_frame + buf.count)) 1
      let last_index := last_frame % PROTOCOL_INPUT_BUFFER_SIZE
      { buf.inputs last_index with frame_number := frame }

/-- `protocol_should_rollback`: fixed-point position distance (via
`fixed_sqrt`) and absolute heading difference, both converted to float
and compared against `threshold` and `0.1f`.  The float conversions and
comparisons are modelled exactly over `ℚ`. -/
def protocol_should_rollback (_frame : ℕ) (predicted actual : car_physics)
    (threshold : ℚ) : Bool :=
  let dx := toI32 (predicted.position.x - actual.position.x)
  let dy := toI32 (predicted.position.y - actual.position.y)
  let distance_error := fixed_sqrt (toI32 (fixed_mul dx dx + fixed_mul dy dy))
  let distance_error_f : ℚ := (distance_error : ℚ) / 65536
  let heading_error := toI32 (predicted.heading - actual.heading)
  let heading_error := if heading_error < 0 then toI32 (-heading_error) else heading_error
  let heading_error_f : ℚ := (heading_error : ℚ) / 65536
  decide (threshold < distance_error_f) || decide (1 / 10 < heading_error_f)

/-- `protocol_advance_frame`: increment the global frame counter, then
compact either input buffer whose end (`start_frame + count`) the
counter has outrun by more than `PROTOCOL_INPUT_BUFFER_SIZE / 2 = 32`
frames, to a window of the last `PROTOCOL_INPUT_BUFFER_SIZE / 4 = 16`
frames. -/
def protocol_advance_frame (s : protocol_sim) : protocol_sim :=
  let current_frame := u32 (s.state.current_frame + 1)
  let cleanup := fun (b : input_buffer) =>
    let buffer_end := u32 (b.start_frame + b.count)
    if u32 (buffer_end + PROTOCOL_INPUT_BUFFER_SIZE / 2) < current_frame then
      { b with start_frame := sub32 current_frame (PROTOCOL_INPUT_BUFFER_SIZE / 4)
               count := PROTOCOL_INPUT_BUFFER_SIZE / 4 }
    else b
  { state := { s.state with current_frame := current_frame }
    local_input_buffer := cleanup s.local_input_buffer
    remote_input_buffer := cleanup s.remote_input_buffer }

/-! ## Named intermediate quantities of `protocol_should_rollback` -/

/-- The fixed-point Euclidean distance between the predicted and actual
positions, exactly as `protocol_should_rollback` computes it. -/
def rollback_distance_error (predicted actual : car_physics) : ℤ :=
  let dx := toI32 (predicted.position.x - actual.position.x)
  let dy := toI32 (predicted.position.y - actual.position.y)
  fixed_sqrt (toI32 (fixed_mul dx dx + fixed_mul dy dy))

/-- The absolute fixed-point heading difference, exactly as
`protocol_should_rollback` computes it. -/
def rollback_heading_error (predicted actual : car_physics) : ℤ :=
  let heading_error := toI32 (predicted.heading - actual.heading)
  if heading_error < 0 then toI32 (-heading_error) else heading_error

/-! ## Ring-buffer well-formedness -/

/-- The ring-buffer invariant: the logical count never exceeds the
fixed capacity `PROTOCOL_INPUT_BUFFER_SIZE = 64`. -/
def input_buffer_wf (b : input_buffer) : Prop := b.count ≤ PROTOCOL_INPUT_BUFFER_SIZE

/-! ## Concrete scenario states used by the claim theorems -/

/-- A host-side protocol state (player id 0) at frame 32. -/
def host_state_f32 : protocol_state :=
  { is_host := true, is_connected := true, local_player_id := 0, remote_player_id := 1,
    current_frame := 32, last_received_frame := 0, latency_samples := 0, avg_latency := 0,
    jitter := 0 }

/-- A host-side protocol state (player id 0) at frame 0. -/
def host_state_f0 : protocol_state :=
  { host_state_f32 with current_frame := 0 }

/-- Full-throttle input sample. -/
def input_full_throttle : input_state := ⟨1, 0, 0, 0⟩

/-- Half-throttle input sample. -/
def input_half_throttle : input_state := ⟨1/2, 0, 0, 0⟩

/-- Full throttle with quarter-right steering. -/
def input_quarter_steer : input_state := ⟨1, 0, 1/4, 0⟩

/-- A full-throttle input packet from player 0 for frame 32; its
checksum field holds the CRC-16 of its first 11 wire bytes (this
validity is re-checked in the theorems that use it). -/
def packet_f32 : input_packet := ⟨0, 100, 0, 0, 0, 32, 0, 61251⟩

/-- The client-side protocol globals after `protocol_init(false)`
followed by 33 calls to `protocol_advance_frame` (both ring buffers
compacted to `start_frame = 17`, `count = 16`). -/
def client_sim_33 : protocol_sim := protocol_advance_frame^[33] (protocol_init false)

/-- The client's remote input buffer after additionally receiving the
valid frame-32 input packet from the host. -/
def client_buf_33 : input_buffer :=
  (protocol_unpack_input client_sim_33.state (encode_input packet_f32) (0, 0, 0)
    client_sim_33.remote_input_buffer).2.2

/-- Protocol globals at frame 35 with ten frames of local input
history starting at frame 0. -/
def sim_f35 : protocol_sim :=
  { state := { host_state_f32 with current_frame := 35 }
    local_input_buffer := { zero_input_buffer with start_frame := 0, count := 10 }
    remote_input_buffer := zero_input_buffer }

/-- Protocol globals at frame 40: a stale local buffer (history ends at
frame 2) and a fresh remote buffer (history ends at frame 45). -/
def sim_f40 : protocol_sim :=
  { state := { host_state_f32 with current_frame := 40 }
    local_input_buffer := { zero_input_buffer with start_frame := 0, count := 2 }
    remote_input_buffer := { zero_input_buffer with start_frame := 40, count := 5 } }

/-- A car standing at fixed-point (5.0, 0.0) — one unit beyond the
4.0-unit wall radius — moving outward at 1.0 unit/s. -/
def car_beyond_wall : car_physics :=
  ⟨⟨327680, 0⟩, ⟨65536, 0⟩, ⟨0, 0⟩, 0, 0, 0, 65536000, 9830, 55705⟩

/-- A second car far up the y axis (60.0 units), at rest. -/
def car_far_away : car_physics :=
  ⟨⟨0, 3932160⟩, ⟨0, 0⟩, ⟨0, 0⟩, 0, 0, 0, 65536000, 9830, 55705⟩

/-- A two-car world with no checkpoints: car 0 beyond the wall, car 1
far away (the pair is further apart than the car-car collision
threshold after the wall pass). -/
def world_wall : physics_world :=
  { cars := fun i => if i = 0 then car_beyond_wall else car_far_away
    checkpoints := fun _ => ⟨⟨0, 0⟩, 65536, false, 0, 0⟩
    checkpoint_count := 0
    current_checkpoint := fun _ => 0
    race_time := fun _ => 0
    race_finished := fun _ => false
    track_length := 0
    total_laps := 3 }

/-- A two-checkpoint world whose first checkpoint (radius 1.0 at the
origin) is already marked passed, with car 0 sitting on it and
expecting it. -/
def world_cp_passed : physics_world :=
  { world_wall with
    cars := fun _ => { car_beyond_wall with position := ⟨0, 0⟩, velocity := ⟨0, 0⟩ }
    checkpoints := fun n => ⟨⟨0, 0⟩, 65536, n = 0, n, 0⟩
    checkpoint_count := 2 }

/-- The same world with no checkpoint passed yet. -/
def world_cp_fresh : physics_world :=
  { world_cp_passed with checkpoints := fun n => ⟨⟨0, 0⟩, 65536, false, n, 0⟩ }

/-- A valid 31-byte game-state packet body for player 0 (all other
fields zero), and the full 33-byte packet with its CRC-16 appended. -/
def game_body : List ℕ :=
  [0, 0, 0, 0, 0, 0, 0, 0, 0, 0, 0, 0, 0, 0, 0, 0, 0, 0, 0, 0, 0, 0, 0, 0, 0, 0, 0, 0, 0, 0, 0]

/-- The 33 wire bytes of a valid game-state packet for player 0. -/
def game_bytes : List ℕ := game_body ++ u16Bytes (crc16 game_body)

/-! ## Supporting lemmas: machine integers -/

lemma toI32_eq_of (z : ℤ) (h1 : -2 ^ 31 ≤ z) (h2 : z < 2 ^ 31) : toI32 z = z := by
  unfold toI32; omega

lemma toI8_eq_of (z : ℤ) (h1 : -2 ^ 7 ≤ z) (h2 : z < 2 ^ 7) : toI8 z = z := by
  unfold toI8; omega

lemma byteOfI8_lt (z : ℤ) : byteOfI8 z < 256 := by
  unfold byteOfI8; omega

lemma i8OfByte_byteOfI8 (z : ℤ) (h1 : -2 ^ 7 ≤ z) (h2 : z < 2 ^ 7) :
    i8OfByte (byteOfI8 z) = z := by
  unfold i8OfByte byteOfI8; split <;> omega

lemma truncQ_intCast (z : ℤ) : truncQ ((z : ℚ)) = z := by
  unfold truncQ
  rw [Rat.num_intCast, Rat.den_intCast]
  simp [Int.tdiv_one z]

/-! ## Supporting lemmas: byte lists -/

lemma byteAt_cons_succ (a : ℕ) (l : List ℕ) (i : ℕ) : byteAt (a :: l) (i + 1) = byteAt l i := rfl

lemma byteAt_set_eq (l : List ℕ) (i v : ℕ) (h : i < l.length) : byteAt (l.set i v) i = v := by
  induction l generalizing i with
  | nil => simp at h
  | cons a t ih =>
    cases i with
    | zero => rfl
    | succ j => exact ih j (by simpa using h)

lemma byteAt_set_ne (l : List ℕ) (i j v : ℕ) (h : i ≠ j) : byteAt (l.set i v) j = byteAt l j := by
  induction l generalizing i j with
  | nil => rfl
  | cons a t ih =>
    cases i with
    | zero =>
      cases j with
      | zero => exact absurd rfl h
      | succ k => rfl
    | succ i' =>
      cases j with
      | zero => rfl
      | succ k => exact ih i' k (by omega)

lemma byteAt_take (l : List ℕ) (k i : ℕ) (h : i < k) : byteAt (l.take k) i = byteAt l i := by
  induction l generalizing k i with
  | nil => simp [byteAt]
  | cons a t ih =>
    cases k with
    | zero => omega
    | succ k' =>
      cases i with
      | zero => rfl
      | succ j => exact ih k' j (by omega)

lemma take_set_comm (l : List ℕ) (i v k : ℕ) (h : i < k) :
    (l.set i v).take k = (l.take k).set i v := by
  induction l generalizing i k with
  | nil => simp
  | cons a t ih =>
    cases k with
    | zero => omega
    | succ k' =>
      cases i with
      | zero => simp
      | succ j => simpa using ih j k' (by omega)

lemma take_set_ge (l : List ℕ) (i v k : ℕ) (h : k ≤ i) : (l.set i v).take k = l.take k := by
  induction l generalizing i k with
  | nil => simp
  | cons a t ih =>
    cases k with
    | zero => simp
    | succ k' =>
      cases i with
      | zero => omega
      | succ j => simpa using ih j k' (by omega)

lemma mem_set_lt (l : List ℕ) (i v : ℕ) (hl : ∀ b ∈ l, b < 256) (hv : v < 256) :
    ∀ b ∈ l.set i v, b < 256 := by
  intro b hb
  rcases List.mem_or_eq_of_mem_set hb with h | h
  · exact hl b h
  · omega

lemma mem_take_lt (l : List ℕ) (k : ℕ) (hl : ∀ b ∈ l, b < 256) :
    ∀ b ∈ l.take k, b < 256 := fun b hb => hl b (List.mem_of_mem_take hb)

/-! ## Supporting lemmas: CRC-16 detects any single-byte change -/

lemma xor_left_cancel_nat (c a b : ℕ) (h : c ^^^ a = c ^^^ b) : a = b := by
  have h' := congrArg (fun x => c ^^^ x) h
  simpa [← Nat.xor_assoc, Nat.xor_self, Nat.zero_xor] using h'

lemma xor_right_cancel_nat (a b c : ℕ) (h : a ^^^ c = b ^^^ c) : a = b := by
  have h' := congrArg (fun x => x ^^^ c) h
  simpa [Nat.xor_assoc, Nat.xor_self, Nat.xor_zero] using h'

lemma xor_high_bit (a : ℕ) (h : a < 2 ^ 15) : 2 ^ 15 ≤ a ^^^ 0xA001 := by
  have hb : (a ^^^ 0xA001).testBit 15 = true := by
    rw [Nat.testBit_xor, Nat.testBit_lt_two_pow h]
    decide
  exact Nat.testBit_implies_ge hb

lemma crcRound_lt (c : ℕ) (h : c < 2 ^ 16) : crcRound c < 2 ^ 16 := by
  unfold crcRound
  split
  · exact Nat.xor_lt_two_pow (by omega) (by norm_num)
  · omega

lemma crcRound_inj (c1 c2 : ℕ) (h1 : c1 < 2 ^ 16) (h2 : c2 < 2 ^ 16)
    (h : crcRound c1 = crcRound c2) : c1 = c2 := by
  unfold crcRound at h
  split_ifs at h with p1 p2 p2
  · have heq : c1 / 2 = c2 / 2 := xor_right_cancel_nat _ _ _ h
    omega
  · exfalso
    have hx := xor_high_bit (c1 / 2) (by omega)
    rw [h] at hx
    omega
  · exfalso
    have hx := xor_high_bit (c2 / 2) (by omega)
    rw [← h] at hx
    omega
  · omega

lemma crcRound_iter_lt (n c : ℕ) (h : c < 2 ^ 16) : crcRound^[n] c < 2 ^ 16 := by
  induction n generalizing c with
  | zero => simpa using h
  | succ n ih =>
    rw [Function.iterate_succ_apply]
    exact ih _ (crcRound_lt c h)

lemma crcRound_iter_inj (n c1 c2 : ℕ) (h1 : c1 < 2 ^ 16) (h2 : c2 < 2 ^ 16)
    (h : crcRound^[n] c1 = crcRound^[n] c2) : c1 = c2 := by
  induction n generalizing c1 c2 with
  | zero => simpa using h
  | succ n ih =>
    rw [Function.iterate_succ_apply, Function.iterate_succ_apply] at h
    exact crcRound_inj _ _ h1 h2 (ih _ _ (crcRound_lt _ h1) (crcRound_lt _ h2) h)

lemma crcByteStep_lt (c b : ℕ) (hc : c < 2 ^ 16) (hb : b < 256) : crcByteStep c b < 2 ^ 16 :=
  crcRound_iter_lt 8 _ (Nat.xor_lt_two_pow hc (by omega))

lemma crcByteStep_inj_state (c1 c2 b : ℕ) (h1 : c1 < 2 ^ 16) (h2 : c2 < 2 ^ 16) (hb : b < 256)
    (hne : c1 ≠ c2) : crcByteStep c1 b ≠ crcByteStep c2 b := by
  intro h
  exact hne (xor_right_cancel_nat _ _ _
    (crcRound_iter_inj 8 _ _ (Nat.xor_lt_two_pow h1 (by omega)) (Nat.xor_lt_two_pow h2 (by omega)) h))

lemma crcByteStep_inj_byte (c b1 b2 : ℕ) (hc : c < 2 ^ 16) (hb1 : b1 < 256) (hb2 : b2 < 256)
    (hne : b1 ≠ b2) : crcByteStep c b1 ≠ crcByteStep c b2 := by
  intro h
  exact hne (xor_left_cancel_nat c _ _
    (crcRound_iter_inj 8 _ _ (Nat.xor_lt_two_pow hc (by omega)) (Nat.xor_lt_two_pow hc (by omega)) h))

lemma foldl_crc_lt (l : List ℕ) : ∀ c, (∀ b ∈ l, b < 256) → c < 2 ^ 16 →
    l.foldl crcByteStep c < 2 ^ 16 := by
  induction l with
  | nil => intro c _ hc; simpa using hc
  | cons b t ih =>
    intro c hl hc
    simp only [List.foldl_cons]
    exact ih _ (fun x hx => hl x (List.mem_cons_of_mem _ hx))
      (crcByteStep_lt _ _ hc (hl b (List.mem_cons_self b t)))

lemma crc16_lt (l : List ℕ) (hl : ∀ b ∈ l, b < 256) : crc16 l < 2 ^ 16 :=
  foldl_crc_lt l 0xFFFF hl (by norm_num)

lemma foldl_crc_ne (l : List ℕ) : ∀ c1 c2, (∀ b ∈ l, b < 256) → c1 < 2 ^ 16 → c2 < 2 ^ 16 →
    c1 ≠ c2 → l.foldl crcByteStep c1 ≠ l.foldl crcByteStep c2 := by
  induction l with
  | nil => intro c1 c2 _ _ _ hne; simpa using hne
  | cons b t ih =>
    intro c1 c2 hl h1 h2 hne
    simp only [List.foldl_cons]
    have hb := hl b (List.mem_cons_self b t)
    exact ih _ _ (fun x hx => hl x (List.mem_cons_of_mem _ hx))
      (crcByteStep_lt _ _ h1 hb) (crcByteStep_lt _ _ h2 hb)
      (crcByteStep_inj_state _ _ _ h1 h2 hb hne)

lemma foldl_crc_set_ne (l : List ℕ) : ∀ (i v c : ℕ), (∀ b ∈ l, b < 256) → v < 256 →
    c < 2 ^ 16 → i < l.length → v ≠ byteAt l i →
    (l.set i v).foldl crcByteStep c ≠ l.foldl crcByteStep c := by
  induction l with
  | nil => intro i v c _ _ _ hi _; simp at hi
  | cons b t ih =>
    intro i v c hl hv hc hi hne
    have hb := hl b (List.mem_cons_self b t)
    cases i with
    | zero =>
      simp only [List.set_cons_zero, List.foldl_cons]
      exact foldl_crc_ne t _ _ (fun x hx => hl x (List.mem_cons_of_mem _ hx))
        (crcByteStep_lt _ _ hc hv) (crcByteStep_lt _ _ hc hb)
        (crcByteStep_inj_byte _ _ _ hc hv hb hne)
    | succ j =>
      simp only [List.set_cons_succ, List.foldl_cons]
      exact ih j v _ (fun x hx => hl x (List.mem_cons_of_mem _ hx)) hv
        (crcByteStep_lt _ _ hc hb) (by simpa using hi) hne

/-- A CRC-16 over bytes all below 256 changes whenever one byte of the
data changes. -/
lemma crc16_set_ne (l : List ℕ) (i v : ℕ) (hl : ∀ b ∈ l, b < 256) (hv : v < 256)
    (hi : i < l.length) (hne : v ≠ byteAt l i) : crc16 (l.set i v) ≠ crc16 l :=
  foldl_crc_set_ne l i v 0xFFFF hl hv (by norm_num) hi hne

/-! ## Supporting lemmas: the input packet wire layout -/

lemma byteAt_lt (l : List ℕ) (h : ∀ b ∈ l, b < 256) (i : ℕ) : byteAt l i < 256 := by
  induction l generalizing i with
  | nil => simp [byteAt]
  | cons a t ih =>
    cases i with
    | zero => exact h a (List.mem_cons_self a t)
    | succ j => exact ih (fun x hx => h x (List.mem_cons_of_mem _ hx)) j

lemma u32At_lt (l : List ℕ) (h : ∀ b ∈ l, b < 256) (i : ℕ) : u32At l i < 2 ^ 32 := by
  have h0 := byteAt_lt l h i
  have h1 := byteAt_lt l h (i + 1)
  have h2 := byteAt_lt l h (i + 2)
  have h3 := byteAt_lt l h (i + 3)
  unfold u32At
  omega

lemma encode_input_length (p : input_packet) : (encode_input p).length = 13 := rfl

lemma encode_input_bytes_lt (p : input_packet) : ∀ b ∈ encode_input p, b < 256 := by
  intro b hb
  simp only [encode_input, u32Bytes, u16Bytes, List.cons_append, List.nil_append,
    List.mem_cons, List.not_mem_nil, or_false] at hb
  rcases hb with rfl | rfl | rfl | rfl | rfl | rfl | rfl | rfl | rfl | rfl | rfl | rfl | rfl <;>
    first
    | exact byteOfI8_lt _
    | exact Nat.mod_lt _ (by norm_num)

/-- The first 11 wire bytes do not depend on the checksum field. -/
lemma encode_input_take11 (p : input_packet) (c : ℕ) :
    (encode_input { p with checksum := c }).take 11 = (encode_input p).take 11 := rfl

/-- Packing then reading the wire bytes back recovers every field,
provided the fields are in their C ranges. -/
lemma decode_encode_input (p : input_packet)
    (h1 : p.player_id < 256) (h2 : -128 ≤ p.throttle) (h3 : p.throttle < 128)
    (h4 : -128 ≤ p.brake) (h5 : p.brake < 128) (h6 : -128 ≤ p.steering) (h7 : p.steering < 128)
    (h8 : p.buttons < 256) (h9 : p.frame_number < 2 ^ 32) (h10 : p.timestamp < 2 ^ 16)
    (h11 : p.checksum < 2 ^ 16) :
    decode_input (encode_input p) = p := by
  obtain ⟨pid, t, bk, s, bu, f, ts, ck⟩ := p
  have hd : decode_input (encode_input (⟨pid, t, bk, s, bu, f, ts, ck⟩ : input_packet)) =
      ⟨pid % 256, i8OfByte (byteOfI8 t), i8OfByte (byteOfI8 bk), i8OfByte (byteOfI8 s), bu % 256,
       f % 256 + 256 * (f / 256 % 256) + 2 ^ 16 * (f / 2 ^ 16 % 256) +
         2 ^ 24 * (f / 2 ^ 24 % 256),
       ts % 256 + 256 * (ts / 256 % 256), ck % 256 + 256 * (ck / 256 % 256)⟩ := rfl
  rw [hd]
  simp only at h1 h2 h3 h4 h5 h6 h7 h8 h9 h10 h11
  simp only [input_packet.mk.injEq]
  refine ⟨by omega, i8OfByte_byteOfI8 t h2 h3, i8OfByte_byteOfI8 bk h4 h5,
    i8OfByte_byteOfI8 s h6 h7, by omega, by omega, by omega, by omega⟩

/-! ## Supporting lemmas: the packed input packet -/

lemma toI8_range (z : ℤ) : -128 ≤ toI8 z ∧ toI8 z < 128 := by
  unfold toI8; omega

lemma pack_player_id (st : protocol_state) (t : ℕ) (i : input_state) :
    (protocol_pack_input st t i).player_id = st.local_player_id := rfl

lemma pack_throttle (st : protocol_state) (t : ℕ) (i : input_state) :
    (protocol_pack_input st t i).throttle = if i.throttle ≠ 0 then 100 else 0 := rfl

lemma pack_brake (st : protocol_state) (t : ℕ) (i : input_state) :
    (protocol_pack_input st t i).brake = if i.brake ≠ 0 then 100 else 0 := rfl

lemma pack_steering (st : protocol_state) (t : ℕ) (i : input_state) :
    (protocol_pack_input st t i).steering = toI8 (truncQ (i.steering * 100)) := rfl

lemma pack_frame_number (st : protocol_state) (t : ℕ) (i : input_state) :
    (protocol_pack_input st t i).frame_number = st.current_frame := rfl

/-- The appended checksum is the CRC-16 of the packet's own first 11
wire bytes (those bytes do not depend on the checksum field). -/
lemma pack_checksum_valid (st : protocol_state) (t : ℕ) (i : input_state) :
    (protocol_pack_input st t i).checksum =
      crc16 ((encode_input (protocol_pack_input st t i)).take 11) := rfl

/-- Every field of a packed input packet is in its C range, so reading
the wire bytes back recovers the packet. -/
lemma decode_encode_pack (st : protocol_state) (t : ℕ) (i : input_state)
    (hpid : st.local_player_id < 256) (hframe : st.current_frame < 2 ^ 32) :
    decode_input (encode_input (protocol_pack_input st t i)) =
      protocol_pack_input st t i := by
  apply decode_encode_input
  · exact hpid
  · rw [pack_throttle]; split <;> decide
  · rw [pack_throttle]; split <;> decide
  · rw [pack_brake]; split <;> decide
  · rw [pack_brake]; split <;> decide
  · exact (toI8_range _).1
  · exact (toI8_range _).2
  · show (if i.buttons &&& 1 ≠ 0 then 1 else 0) + (if i.buttons &&& 2 ≠ 0 then 2 else 0) +
        (if i.buttons &&& 4 ≠ 0 then 4 else 0) + (if i.buttons &&& 8 ≠ 0 then 8 else 0) < 256
    split_ifs <;> decide
  · rw [pack_frame_number]
    exact hframe
  · show t % 2 ^ 16 < 2 ^ 16
    exact Nat.mod_lt _ (by norm_num)
  · exact crc16_lt _ (mem_take_lt _ _ (encode_input_bytes_lt _))

/-- Unpacking an unmodified packed input packet on a receiver that
expects the sender's player id succeeds and yields the quantized
values scaled back to floats. -/
lemma unpack_pack (sender receiver : protocol_state) (time_ms : ℕ) (input : input_state)
    (dest : ℚ × ℚ × ℚ) (buf : input_buffer)
    (hpid : sender.local_player_id < 256)
    (hmatch : receiver.remote_player_id = sender.local_player_id)
    (hframe : sender.current_frame < 2 ^ 32) :
    (protocol_unpack_input receiver (encode_input (protocol_pack_input sender time_ms input))
        dest buf).1 = none ∧
    (protocol_unpack_input receiver (encode_input (protocol_pack_input sender time_ms input))
        dest buf).2.1 =
      (((if input.throttle ≠ 0 then (100 : ℤ) else 0) : ℚ) / 100,
       ((if input.brake ≠ 0 then (100 : ℤ) else 0) : ℚ) / 100,
       ((toI8 (truncQ (input.steering * 100)) : ℤ) : ℚ) / 100) := by
  have hdec := decode_encode_pack sender time_ms input hpid hframe
  have hplayer : ¬((protocol_pack_input sender time_ms input).player_id ≠
      receiver.remote_player_id) := by
    rw [pack_player_id, hmatch]
    exact fun h => h rfl
  have hck : ¬((protocol_pack_input sender time_ms input).checksum ≠
      crc16 ((encode_input (protocol_pack_input sender time_ms input)).take 11)) :=
    fun h => h (pack_checksum_valid sender time_ms input)
  unfold protocol_unpack_input
  rw [hdec, if_neg hplayer, if_neg hck]
  refine ⟨rfl, ?_⟩
  dsimp only
  rw [pack_throttle, pack_brake, pack_steering]
  split_ifs <;> rfl

/-! ## Claim theorems -/

/-- Claim C6: `protocol_should_rollback` returns true exactly when the
fixed-point Euclidean distance between the predicted and actual
positions, computed via the fixed-point square root, strictly exceeds
the threshold, or the absolute fixed-point heading difference strictly
exceeds 0.1 radian; it returns false when both errors are at or under
their bounds. -/
theorem c6_should_rollback_iff (frame : ℕ) (predicted actual : car_physics) (threshold : ℚ) :
    protocol_should_rollback frame predicted actual threshold = true ↔
      (threshold < (rollback_distance_error predicted actual : ℚ) / 65536 ∨
       (1 : ℚ) / 10 < (rollback_heading_error predicted actual : ℚ) / 65536) := by
  simp [protocol_should_rollback, rollback_distance_error, rollback_heading_error,
    Bool.or_eq_true, decide_eq_true_eq]

/-- Claim C8: `fixed_div` fails exactly when the divisor is zero (the
source performs the C division unguarded, and division by zero is an
undefined — failing — computation, made explicit as `none`); for every
nonzero divisor it returns the 64-bit quotient `(a << 16) / b`
truncated toward zero and wrapped to 32 bits. -/
theorem c8_fixed_div_zero (a b : ℤ) :
    (fixed_div a b = none ↔ b = 0) ∧
    (b ≠ 0 → fixed_div a b = some (toI32 (Int.tdiv (a * 2 ^ 16) b))) := by
  constructor
  · unfold fixed_div
    split <;> simp_all
  · intro h
    unfold fixed_div fixed_div_expr
    rw [if_neg h]

/-- Witness for C8 at `a = 65536`, `b = 3`. -/
theorem c8_witness :
    ((3 : ℤ) ≠ 0) ∧ fixed_div 65536 3 = some (toI32 (Int.tdiv (65536 * 2 ^ 16) 3)) :=
  ⟨by decide, (c8_fixed_div_zero 65536 3).2 (by decide)⟩

/-- Counterexample for C9: at the largest representable operands the
result of `fixed_mul` does not match the 64-bit reference
`((int64)a * (int64)b) >> 16` — the cast back to `int32_t` wraps. -/
theorem c9_counterexample :
    fixed_mul 2147483647 2147483647 ≠ Int.fdiv (2147483647 * 2147483647) (2 ^ 16) := by
  decide

/-- Claim C9 (amended): `fixed_mul` computes the 64-bit reference
`((int64)a * (int64)b) >> 16` and then wraps it to `int32_t`; it equals
the 64-bit reference exactly when that reference fits in `int32_t`
(so the widening prevents overflow of the intermediate product, not of
the final narrowing). -/
theorem c9_fixed_mul (a b : ℤ) :
    fixed_mul a b = toI32 (Int.fdiv (a * b) (2 ^ 16)) ∧
    (-2 ^ 31 ≤ Int.fdiv (a * b) (2 ^ 16) → Int.fdiv (a * b) (2 ^ 16) < 2 ^ 31 →
      fixed_mul a b = Int.fdiv (a * b) (2 ^ 16)) :=
  ⟨rfl, fun hlow hhigh => toI32_eq_of _ hlow hhigh⟩

/-- Witness for C9 at `a = 3.0`, `b = 5.0` in fixed-point. -/
theorem c9_witness :
    (-2 ^ 31 ≤ Int.fdiv ((196608 : ℤ) * 327680) (2 ^ 16) ∧
      Int.fdiv ((196608 : ℤ) * 327680) (2 ^ 16) < 2 ^ 31) ∧
    fixed_mul 196608 327680 = Int.fdiv ((196608 : ℤ) * 327680) (2 ^ 16) :=
  ⟨⟨by decide, by decide⟩, (c9_fixed_mul 196608 327680).2 (by decide) (by decide)⟩

/-- Counterexample for C4: packing half throttle (0.5) on the sender
and unpacking the unmodified packet on the matching receiver passes
checksum validation but yields throttle 1.0, not the original 0.5 —
`pack_input` binarizes throttle (`input->throttle ? 100 : 0`). -/
theorem c4_counterexample :
    (protocol_unpack_input (protocol_init false).state
        (encode_input (protocol_pack_input host_state_f0 0 input_half_throttle)) (0, 0, 0)
        zero_input_buffer).1 = none ∧
    (protocol_unpack_input (protocol_init false).state
        (encode_input (protocol_pack_input host_state_f0 0 input_half_throttle)) (0, 0, 0)
        zero_input_buffer).2.1.1 = 1 ∧
    input_half_throttle.throttle = 1 / 2 ∧ (1 : ℚ) ≠ 1 / 2 := by
  have hu := unpack_pack host_state_f0 (protocol_init false).state 0 input_half_throttle
    (0, 0, 0) zero_input_buffer (by decide) (by decide) (by decide)
  refine ⟨hu.1, ?_, rfl, by norm_num⟩
  rw [hu.2]
  show ((if input_half_throttle.throttle ≠ 0 then (100 : ℤ) else 0) : ℚ) / 100 = 1
  rw [show input_half_throttle.throttle = 1 / 2 from rfl]
  norm_num

/-- Claim C4 (amended): `protocol_pack_input` quantizes throttle and
brake to the two values {0, 100} (any nonzero float becomes 100) and
steering to `trunc(steering·100)`, all within the -100..100 range, and
appends a checksum over the 11 preceding bytes; unpacking the
unmodified packet on a receiver expecting the sender's player id
passes checksum validation and recovers the original values whenever
throttle and brake are 0 or 1 and steering·100 is exactly
representable (here: steering a multiple of 1/4). -/
theorem c4_pack_unpack_roundtrip (sender receiver : protocol_state) (time_ms : ℕ)
    (input : input_state) (dest : ℚ × ℚ × ℚ) (buf : input_buffer) (j : ℤ)
    (hpid : sender.local_player_id < 256)
    (hmatch : receiver.remote_player_id = sender.local_player_id)
    (hframe : sender.current_frame < 2 ^ 32)
    (ht : input.throttle = 0 ∨ input.throttle = 1)
    (hb : input.brake = 0 ∨ input.brake = 1)
    (hs : input.steering = (j : ℚ) / 4) (hj1 : -4 ≤ j) (hj2 : j ≤ 4) :
    (-100 ≤ (protocol_pack_input sender time_ms input).throttle ∧
      (protocol_pack_input sender time_ms input).throttle ≤ 100) ∧
    (-100 ≤ (protocol_pack_input sender time_ms input).brake ∧
      (protocol_pack_input sender time_ms input).brake ≤ 100) ∧
    ((protocol_pack_input sender time_ms input).steering = 25 * j ∧
      -100 ≤ (protocol_pack_input sender time_ms input).steering ∧
      (protocol_pack_input sender time_ms input).steering ≤ 100) ∧
    (protocol_pack_input sender time_ms input).checksum =
      crc16 ((encode_input (protocol_pack_input sender time_ms input)).take 11) ∧
    (protocol_unpack_input receiver (encode_input (protocol_pack_input sender time_ms input))
        dest buf).1 = none ∧
    (protocol_unpack_input receiver (encode_input (protocol_pack_input sender time_ms input))
        dest buf).2.1 = (input.throttle, input.brake, input.steering) := by
  have hq : ((j : ℚ) / 4 * 100) = ((25 * j : ℤ) : ℚ) := by push_cast; ring
  have h25 : toI8 (truncQ (input.steering * 100)) = 25 * j := by
    rw [hs, hq, truncQ_intCast]
    exact toI8_eq_of _ (by omega) (by omega)
  have hu := unpack_pack sender receiver time_ms input dest buf hpid hmatch hframe
  refine ⟨?_, ?_, ⟨by rw [pack_steering, h25], by rw [pack_steering, h25]; omega,
      by rw [pack_steering, h25]; omega⟩, pack_checksum_valid sender time_ms input, hu.1, ?_⟩
  · rw [pack_throttle]; split <;> omega
  · rw [pack_brake]; split <;> omega
  · rw [hu.2]
    simp only [Prod.mk.injEq, h25]
    refine ⟨?_, ?_, ?_⟩
    · rcases ht with ht | ht <;> rw [ht] <;> norm_num
    · rcases hb with hb | hb <;> rw [hb] <;> norm_num
    · rw [hs]; push_cast; ring

/-- Witness for C4: full throttle with steering 0.25 at frame 32 from
player 0 to the expecting receiver. -/
theorem c4_witness :
    (host_state_f32.local_player_id < 256 ∧
      (protocol_init false).state.remote_player_id = host_state_f32.local_player_id ∧
      host_state_f32.current_frame < 2 ^ 32 ∧
      (input_quarter_steer.throttle = 0 ∨ input_quarter_steer.throttle = 1) ∧
      (input_quarter_steer.brake = 0 ∨ input_quarter_steer.brake = 1) ∧
      input_quarter_steer.steering = ((1 : ℤ) : ℚ) / 4 ∧
      (-4 : ℤ) ≤ 1 ∧ (1 : ℤ) ≤ 4) ∧
    (protocol_unpack_input (protocol_init false).state
        (encode_input (protocol_pack_input host_state_f32 0 input_quarter_steer)) (0, 0, 0)
        zero_input_buffer).2.1 =
      (input_quarter_steer.throttle, input_quarter_steer.brake, input_quarter_steer.steering) :=
  ⟨⟨by decide, by decide, by decide, Or.inr rfl, Or.inl rfl, by norm_num [input_quarter_steer],
      by decide, by decide⟩,
    (c4_pack_unpack_roundtrip host_state_f32 (protocol_init false).state 0 input_quarter_steer
        (0, 0, 0) zero_input_buffer 1 (by decide) (by decide) (by decide) (Or.inr rfl)
        (Or.inl rfl) (by norm_num [input_quarter_steer]) (by decide)
        (by decide)).2.2.2.2.2⟩

/-- Counterexample for C2: at frame 35 with a local buffer
`start_frame = 0, count = 10`, the advanced counter 36 is more than
`C/2 = 32` frames ahead of `start_frame`, yet `protocol_advance_frame`
does not compact the buffer (the code compares against
`start_frame + count`, not `start_frame`). -/
theorem c2_counterexample :
    (protocol_advance_frame sim_f35).state.current_frame = 36 ∧
    sim_f35.local_input_buffer.start_frame + 32 < 36 ∧
    (protocol_advance_frame sim_f35).local_input_buffer.start_frame = 0 ∧
    (protocol_advance_frame sim_f35).local_input_buffer.count = 10 ∧
    ¬((protocol_advance_frame sim_f35).local_input_buffer.start_frame = 36 - 16 ∧
      (protocol_advance_frame sim_f35).local_input_buffer.count = 16) := by
  decide

/-- Claim C2 (amended): `protocol_advance_frame` increments the global
frame counter by one, and compacts a buffer exactly when the counter
runs more than `C/2 = 32` frames ahead of the buffer's end
`start_frame + count`, resetting `start_frame` to `current_frame - 16`
and `count` to `C/4 = 16`; otherwise the buffer is left unchanged. -/
theorem c2_advance_frame (s : protocol_sim)
    (h1 : s.state.current_frame + 1 < 2 ^ 32)
    (h2 : s.local_input_buffer.start_frame + s.local_input_buffer.count + 32 < 2 ^ 32)
    (h3 : s.remote_input_buffer.start_frame + s.remote_input_buffer.count + 32 < 2 ^ 32) :
    (protocol_advance_frame s).state.current_frame = s.state.current_frame + 1 ∧
    ((s.local_input_buffer.start_frame + s.local_input_buffer.count + 32 <
        s.state.current_frame + 1 →
      (protocol_advance_frame s).local_input_buffer.start_frame =
          s.state.current_frame + 1 - 16 ∧
      (protocol_advance_frame s).local_input_buffer.count = 16 ∧
      (protocol_advance_frame s).local_input_buffer.inputs =
          s.local_input_buffer.inputs) ∧
     (s.state.current_frame + 1 ≤
        s.local_input_buffer.start_frame + s.local_input_buffer.count + 32 →
      (protocol_advance_frame s).local_input_buffer = s.local_input_buffer)) ∧
    ((s.remote_input_buffer.start_frame + s.remote_input_buffer.count + 32 <
        s.state.current_frame + 1 →
      (protocol_advance_frame s).remote_input_buffer.start_frame =
          s.state.current_frame + 1 - 16 ∧
      (protocol_advance_frame s).remote_input_buffer.count = 16 ∧
      (protocol_advance_frame s).remote_input_buffer.inputs =
          s.remote_input_buffer.inputs) ∧
     (s.state.current_frame + 1 ≤
        s.remote_input_buffer.start_frame + s.remote_input_buffer.count + 32 →
      (protocol_advance_frame s).remote_input_buffer = s.remote_input_buffer)) := by
  obtain ⟨st, lb, rb⟩ := s
  simp only at h1 h2 h3
  unfold protocol_advance_frame
  simp only [u32, sub32, PROTOCOL_INPUT_BUFFER_SIZE]
  have hcf : (st.current_frame + 1) % 2 ^ 32 = st.current_frame + 1 := Nat.mod_eq_of_lt h1
  rw [hcf]
  have hlb : (lb.start_frame + lb.count) % 2 ^ 32 = lb.start_frame + lb.count :=
    Nat.mod_eq_of_lt (by omega)
  have hrb : (rb.start_frame + rb.count) % 2 ^ 32 = rb.start_frame + rb.count :=
    Nat.mod_eq_of_lt (by omega)
  rw [hlb, hrb]
  have hlb2 : (lb.start_frame + lb.count + 64 / 2) % 2 ^ 32 = lb.start_frame + lb.count + 32 :=
    Nat.mod_eq_of_lt (by omega)
  have hrb2 : (rb.start_frame + rb.count + 64 / 2) % 2 ^ 32 = rb.start_frame + rb.count + 32 :=
    Nat.mod_eq_of_lt (by omega)
  rw [hlb2, hrb2]
  refine ⟨rfl, ⟨fun hc => ?_, fun hc => ?_⟩, ⟨fun hc => ?_, fun hc => ?_⟩⟩
  · rw [if_pos hc]
    refine ⟨?_, rfl, rfl⟩
    show (st.current_frame + 1 + 2 ^ 32 - 64 / 4 % 2 ^ 32) % 2 ^ 32 = st.current_frame + 1 - 16
    omega
  · rw [if_neg (by omega)]
  · rw [if_pos hc]
    refine ⟨?_, rfl, rfl⟩
    show (st.current_frame + 1 + 2 ^ 32 - 64 / 4 % 2 ^ 32) % 2 ^ 32 = st.current_frame + 1 - 16
    omega
  · rw [if_neg (by omega)]

/-- Witness for C2: at frame 40, a stale local buffer (history ends at
frame 2) is compacted to `[25, 41)` and a fresh remote buffer (history
ends at frame 45) is left alone. -/
theorem c2_witness :
    (sim_f40.state.current_frame + 1 < 2 ^ 32 ∧
     sim_f40.local_input_buffer.start_frame + sim_f40.local_input_buffer.count + 32 < 2 ^ 32 ∧
     sim_f40.remote_input_buffer.start_frame + sim_f40.remote_input_buffer.count + 32 < 2 ^ 32) ∧
    (protocol_advance_frame sim_f40).state.current_frame = sim_f40.state.current_frame + 1 :=
  ⟨⟨by decide, by decide, by decide⟩,
    (c2_advance_frame sim_f40 (by decide) (by decide) (by decide)).1⟩

/-- Shared arithmetic bound for the two store paths: under the in-range
guard of the C code the raised high-water count stays within the
64-slot capacity. -/
lemma store_count_bound (s f c : ℕ) (hs : s < 2 ^ 32) (hf : f < 2 ^ 32) (hc : c ≤ 64)
    (hg1 : s ≤ f) (hg2 : f < u32 (s + 64)) : max c (u32 (sub32 f s + 1)) ≤ 64 := by
  simp only [u32, sub32] at *
  omega

/-- Claim C10: the ring-buffer invariant `count ≤ 64` holds after
`protocol_init` and `protocol_reset` and is preserved by
`protocol_advance_frame`, `protocol_store_local_input` and
`protocol_unpack_input`, and every computed slot index
`(frame - start_frame) mod 64` is a valid array index. -/
theorem c10_buffer_invariant :
    (∀ host : Bool, input_buffer_wf (protocol_init host).local_input_buffer ∧
        input_buffer_wf (protocol_init host).remote_input_buffer) ∧
    (∀ s : protocol_sim, input_buffer_wf (protocol_reset s).local_input_buffer ∧
        input_buffer_wf (protocol_reset s).remote_input_buffer) ∧
    (∀ s : protocol_sim, input_buffer_wf s.local_input_buffer →
        input_buffer_wf (protocol_advance_frame s).local_input_buffer) ∧
    (∀ s : protocol_sim, input_buffer_wf s.remote_input_buffer →
        input_buffer_wf (protocol_advance_frame s).remote_input_buffer) ∧
    (∀ (st : protocol_state) (time_ms : ℕ) (input : input_state) (frame : ℕ)
        (buf : input_buffer), buf.start_frame < 2 ^ 32 → frame < 2 ^ 32 →
        input_buffer_wf buf →
        input_buffer_wf (protocol_store_local_input st time_ms input frame buf)) ∧
    (∀ (st : protocol_state) (bytes : List ℕ) (dest : ℚ × ℚ × ℚ) (buf : input_buffer),
        (∀ b ∈ bytes, b < 256) → buf.start_frame < 2 ^ 32 →
        input_buffer_wf buf →
        input_buffer_wf (protocol_unpack_input st bytes dest buf).2.2) ∧
    (∀ (buf : input_buffer) (frame : ℕ),
        sub32 frame buf.start_frame % PROTOCOL_INPUT_BUFFER_SIZE < PROTOCOL_INPUT_BUFFER_SIZE) := by
  refine ⟨fun host => ⟨?_, ?_⟩, fun s => ⟨?_, ?_⟩, fun s h => ?_, fun s h => ?_,
    fun st time_ms input frame buf hs hf h => ?_, fun st bytes dest buf hb hs h => ?_,
    fun buf frame => ?_⟩
  · exact Nat.zero_le _
  · exact Nat.zero_le _
  · exact Nat.zero_le _
  · exact Nat.zero_le _
  · unfold protocol_advance_frame input_buffer_wf at *
    dsimp only
    split
    · norm_num [PROTOCOL_INPUT_BUFFER_SIZE]
    · exact h
  · unfold protocol_advance_frame input_buffer_wf at *
    dsimp only
    split
    · norm_num [PROTOCOL_INPUT_BUFFER_SIZE]
    · exact h
  · unfold protocol_store_local_input input_buffer_wf at *
    dsimp only [PROTOCOL_INPUT_BUFFER_SIZE]
    split
    · next hg => exact store_count_bound _ _ _ hs hf h hg.1 hg.2
    · exact h
  · unfold protocol_unpack_input input_buffer_wf at *
    dsimp only [PROTOCOL_INPUT_BUFFER_SIZE]
    split
    · exact h
    · split
      · exact h
      · dsimp only
        split
        · next hg =>
          exact store_count_bound _ _ _ hs (u32At_lt bytes hb 5) h hg.1 hg.2
        · exact h
  · exact Nat.mod_lt _ (by norm_num [PROTOCOL_INPUT_BUFFER_SIZE])

/-- Witness for C10: the store-path conjunct applied to the zeroed
buffer at frame 0. -/
theorem c10_witness :
    (zero_input_buffer.start_frame < 2 ^ 32 ∧ (0 : ℕ) < 2 ^ 32 ∧
      input_buffer_wf zero_input_buffer) ∧
    input_buffer_wf
      (protocol_store_local_input host_state_f0 0 input_full_throttle 0 zero_input_buffer) :=
  ⟨⟨by decide, by decide, Nat.zero_le _⟩,
    c10_buffer_invariant.2.2.2.2.1 host_state_f0 0 input_full_throttle 0 zero_input_buffer
      (by decide) (by decide) (Nat.zero_le _)⟩

set_option maxRecDepth 100000 in
/-- Claim C1, failing input: after `protocol_init(false)`, 33 frame
advances (compacting the remote buffer to `start_frame = 17`,
`count = 16`) and receipt of a valid full-throttle input packet for
frame 32, the sample stored for frame 32 — the newest retained frame,
`start_frame + count - 1` — sits in slot `(32 minus 17) % 64 = 15` with
throttle 100; yet predicting frame 40 (past the newest sample) returns
the never-written slot `32 % 64 = 32` — neutral throttle re-stamped
with frame 40 — because the extrapolation branch indexes
`last_frame % 64` while every store indexes
`(frame - start_frame) % 64`. -/
theorem c1_predict_extrapolation_wrong_slot :
    packet_f32.checksum = crc16 ((encode_input packet_f32).take 11) ∧
    client_buf_33.start_frame = 17 ∧ client_buf_33.count = 16 ∧
    (client_buf_33.inputs
      (sub32 32 client_buf_33.start_frame % PROTOCOL_INPUT_BUFFER_SIZE)).throttle = 100 ∧
    (client_buf_33.inputs
      (sub32 32 client_buf_33.start_frame % PROTOCOL_INPUT_BUFFER_SIZE)).frame_number = 32 ∧
    (protocol_predict_remote_input client_buf_33 40 zero_input_packet).throttle = 0 ∧
    (protocol_predict_remote_input client_buf_33 40 zero_input_packet).frame_number = 40 ∧
    protocol_predict_remote_input client_buf_33 40 zero_input_packet ≠
      { client_buf_33.inputs
          (sub32 32 client_buf_33.start_frame % PROTOCOL_INPUT_BUFFER_SIZE) with
        frame_number := 40 } := by
  decide

set_option maxRecDepth 100000 in
/-- Claim C3, failing input: a car at (5.0, 0.0) — 1.0 beyond the 4.0
wall radius — moving outward at (1.0, 0.0).  `resolve_collisions`
detects the hit (normal ≈ (1.0, 0.0), penetration 1.0) but then adds
the correction along the outward normal, leaving the car at
(6.0, 0.0), farther outside the wall instead of exactly on it, and
leaves the outward velocity untouched (the reflection branch only
fires for inward `normal_vel < 0`, and when it does fire it scales the
whole reflected velocity — tangential part included — by the
elasticity). -/
theorem c3_wall_collision_response :
    physics_check_track_collision car_beyond_wall.position = some (⟨65535, 0⟩, 65536) ∧
    ((resolve_collisions world_wall).cars 0).position = ⟨393215, 0⟩ ∧
    vec2_length ⟨393215, 0⟩ = 393215 ∧
    PHYSICS_WALL_DISTANCE < 393215 ∧
    car_beyond_wall.position.x < 393215 ∧
    ((resolve_collisions world_wall).cars 0).velocity = car_beyond_wall.velocity := by
  decide

/-- Counterexample for C7: car 0 sits at the origin, strictly inside
the radius of its expected checkpoint 0, but that checkpoint is
already marked passed (as `protocol_unpack_game_state` can do), so
`update_checkpoint_progress` does not advance the expected index. -/
theorem c7_counterexample :
    world_cp_passed.current_checkpoint 0 = 0 ∧
    vec2_dot
        (vec2_sub (world_cp_passed.cars 0).position (world_cp_passed.checkpoints 0).position)
        (vec2_sub (world_cp_passed.cars 0).position (world_cp_passed.checkpoints 0).position) <
      fixed_mul (world_cp_passed.checkpoints 0).radius (world_cp_passed.checkpoints 0).radius ∧
    (update_checkpoint_progress world_cp_passed 0).current_checkpoint 0 = 0 ∧
    (0 : ℕ) ≠ 0 + 1 := by
  decide

/-- Claim C7 (amended): when the expected checkpoint index is in range
and the car enters that (not yet passed) checkpoint, the index advances
to `i + 1` and the checkpoint is marked passed; when the advance
reaches `checkpoint_count` the index wraps to 0 and every `passed` flag
is cleared.  No lap counter is incremented: every checkpoint's
`lap_count` and the per-car race fields are unchanged. -/
theorem c7_checkpoint_progress (w : physics_world) (i : Fin 2)
    (h1 : w.current_checkpoint i < w.checkpoint_count)
    (h2 : physics_check_checkpoint_collision (w.cars i)
      (w.checkpoints (w.current_checkpoint i)) = true) :
    ((w.current_checkpoint i + 1 < w.checkpoint_count →
        (update_checkpoint_progress w i).current_checkpoint i = w.current_checkpoint i + 1 ∧
        ((update_checkpoint_progress w i).checkpoints (w.current_checkpoint i)).passed = true ∧
        (∀ n, n ≠ w.current_checkpoint i →
          (update_checkpoint_progress w i).checkpoints n = w.checkpoints n)) ∧
      (w.checkpoint_count ≤ w.current_checkpoint i + 1 →
        (update_checkpoint_progress w i).current_checkpoint i = 0 ∧
        (∀ n, ((update_checkpoint_progress w i).checkpoints n).passed = false) ∧
        (∀ n, ((update_checkpoint_progress w i).checkpoints n).lap_count =
          (w.checkpoints n).lap_count)) ∧
      (update_checkpoint_progress w i).race_time = w.race_time ∧
      (update_checkpoint_progress w i).race_finished = w.race_finished) := by
  unfold update_checkpoint_progress
  rw [if_neg (by omega), if_pos h2]
  by_cases hw : w.checkpoint_count ≤ w.current_checkpoint i + 1
  · rw [if_pos hw]
    dsimp only
    refine ⟨fun hlt => absurd hlt (by omega),
      fun _ => ⟨Function.update_same i 0 _, fun n => rfl, fun n => ?_⟩, rfl, rfl⟩
    by_cases hn : n = w.current_checkpoint i
    · subst hn
      rw [Function.update_same]
    · rw [Function.update_noteq hn]
  · rw [if_neg hw]
    dsimp only
    refine ⟨fun _ => ⟨Function.update_same i _ _, ?_,
      fun n hn => Function.update_noteq hn _ _⟩,
      fun hge => absurd hge (by omega), rfl, rfl⟩
    rw [Function.update_same]

set_option maxRecDepth 100000 in
/-- Counterexample for C5: flipping the player-id byte (byte 0) of a
valid input packet makes the unpack function report `WrongPlayerId`,
not `ChecksumMismatch` — the player-id test runs before the checksum
test. -/
theorem c5_counterexample :
    byteAt (encode_input packet_f32) 0 = (protocol_init false).state.remote_player_id ∧
    u16At (encode_input packet_f32) 11 = crc16 ((encode_input packet_f32).take 11) ∧
    (7 : ℕ) ≠ byteAt (encode_input packet_f32) 0 ∧
    (protocol_unpack_input (protocol_init false).state ((encode_input packet_f32).set 0 7)
        (0, 0, 0) zero_input_buffer).1 = some unpack_error.WrongPlayerId ∧
    some unpack_error.WrongPlayerId ≠ some unpack_error.ChecksumMismatch := by
  decide

/-- Claim C5 (amended): flipping any single byte of a validly packed
input or game-state packet makes the corresponding unpack function
drop the packet with its destination completely unmodified — no output
value, car field, world field or protocol-state field is written and no
buffer slot is stored; the reported condition is `ChecksumMismatch`
for every byte except the player-id byte (byte 0 of an input packet,
byte 1 of a game-state packet), whose flip is caught first by the
player-id test and reported as `WrongPlayerId`. -/
theorem c5_single_byte_flip :
    (∀ (st : protocol_state) (bytes : List ℕ) (dest : ℚ × ℚ × ℚ) (buf : input_buffer)
        (i v : ℕ),
      bytes.length = 13 → (∀ b ∈ bytes, b < 256) →
      byteAt bytes 0 = st.remote_player_id →
      u16At bytes 11 = crc16 (bytes.take 11) →
      i < 13 → v < 256 → v ≠ byteAt bytes i →
      (protocol_unpack_input st (bytes.set i v) dest buf).1 ≠ none ∧
      (protocol_unpack_input st (bytes.set i v) dest buf).2.1 = dest ∧
      (protocol_unpack_input st (bytes.set i v) dest buf).2.2 = buf ∧
      (i = 0 → (protocol_unpack_input st (bytes.set i v) dest buf).1 =
        some unpack_error.WrongPlayerId) ∧
      (i ≠ 0 → (protocol_unpack_input st (bytes.set i v) dest buf).1 =
        some unpack_error.ChecksumMismatch)) ∧
    (∀ (st : protocol_state) (bytes : List ℕ) (car : car_physics) (world : physics_world)
        (time_ms : ℕ) (i v : ℕ),
      bytes.length = 33 → (∀ b ∈ bytes, b < 256) →
      byteAt bytes 1 = st.remote_player_id →
      u16At bytes 31 = crc16 (bytes.take 31) →
      i < 33 → v < 256 → v ≠ byteAt bytes i →
      (protocol_unpack_game_state st (bytes.set i v) car world time_ms).1 ≠ none ∧
      (protocol_unpack_game_state st (bytes.set i v) car world time_ms).2.1 = car ∧
      (protocol_unpack_game_state st (bytes.set i v) car world time_ms).2.2.1 = world ∧
      (protocol_unpack_game_state st (bytes.set i v) car world time_ms).2.2.2 = st ∧
      (i = 1 → (protocol_unpack_game_state st (bytes.set i v) car world time_ms).1 =
        some unpack_error.WrongPlayerId) ∧
      (i ≠ 1 → (protocol_unpack_game_state st (bytes.set i v) car world time_ms).1 =
        some unpack_error.ChecksumMismatch)) := by
  constructor
  · intro st bytes dest buf i v hlen hbytes hpid hck hi hv hne
    by_cases hi0 : i = 0
    · subst hi0
      have hcond : (decode_input (bytes.set 0 v)).player_id ≠ st.remote_player_id := by
        show byteAt (bytes.set 0 v) 0 ≠ st.remote_player_id
        rw [byteAt_set_eq bytes 0 v (by omega), ← hpid]
        exact hne
      unfold protocol_unpack_input
      rw [if_pos hcond]
      exact ⟨by simp, rfl, rfl, fun _ => rfl, fun h => absurd rfl h⟩
    · have hplayer : (decode_input (bytes.set i v)).player_id = st.remote_player_id := by
        show byteAt (bytes.set i v) 0 = st.remote_player_id
        rw [byteAt_set_ne bytes i 0 v hi0, hpid]
      have hckne : (decode_input (bytes.set i v)).checksum ≠
          crc16 ((bytes.set i v).take 11) := by
        show u16At (bytes.set i v) 11 ≠ crc16 ((bytes.set i v).take 11)
        unfold u16At
        unfold u16At at hck
        by_cases h11 : i < 11
        · rw [byteAt_set_ne bytes i 11 v (by omega),
            byteAt_set_ne bytes i (11 + 1) v (by omega),
            take_set_comm bytes i v 11 h11, hck]
          intro h
          exact crc16_set_ne (bytes.take 11) i v (mem_take_lt _ _ hbytes) hv
            (by rw [List.length_take]; omega)
            (by rw [byteAt_take bytes 11 i h11]; exact hne) h.symm
        · rw [take_set_ge bytes i v 11 (by omega), ← hck]
          rcases (by omega : i = 11 ∨ i = 12) with rfl | rfl
          · rw [byteAt_set_eq bytes 11 v (by omega),
              byteAt_set_ne bytes 11 (11 + 1) v (by omega)]
            intro h
            exact hne (by omega)
          · rw [byteAt_set_ne bytes 12 11 v (by omega),
              show (11 : ℕ) + 1 = 12 from rfl, byteAt_set_eq bytes 12 v (by omega)]
            intro h
            exact hne (by omega)
      unfold protocol_unpack_input
      rw [if_neg (fun h => h hplayer), if_pos hckne]
      exact ⟨by simp, rfl, rfl, fun h => absurd h hi0, fun _ => rfl⟩
  · intro st bytes car world time_ms i v hlen hbytes hpid hck hi hv hne
    by_cases hi1 : i = 1
    · subst hi1
      have hcond : (decode_game_state (bytes.set 1 v)).player_id ≠ st.remote_player_id := by
        show byteAt (bytes.set 1 v) 1 ≠ st.remote_player_id
        rw [byteAt_set_eq bytes 1 v (by omega), ← hpid]
        exact hne
      unfold protocol_unpack_game_state
      rw [if_pos hcond]
      exact ⟨by simp, rfl, rfl, rfl, fun _ => rfl, fun h => absurd rfl h⟩
    · have hplayer : (decode_game_state (bytes.set i v)).player_id = st.remote_player_id := by
        show byteAt (bytes.set i v) 1 = st.remote_player_id
        rw [byteAt_set_ne bytes i 1 v hi1, hpid]
      have hckne : (decode_game_state (bytes.set i v)).checksum ≠
          crc16 ((bytes.set i v).take 31) := by
        show u16At (bytes.set i v) 31 ≠ crc16 ((bytes.set i v).take 31)
        unfold u16At
        unfold u16At at hck
        by_cases h31 : i < 31
        · rw [byteAt_set_ne bytes i 31 v (by omega),
            byteAt_set_ne bytes i (31 + 1) v (by omega),
            take_set_comm bytes i v 31 h31, hck]
          intro h
          exact crc16_set_ne (bytes.take 31) i v (mem_take_lt _ _ hbytes) hv
            (by rw [List.length_take]; omega)
            (by rw [byteAt_take bytes 31 i h31]; exact hne) h.symm
        · rw [take_set_ge bytes i v 31 (by omega), ← hck]
          rcases (by omega : i = 31 ∨ i = 32) with rfl | rfl
          · rw [byteAt_set_eq bytes 31 v (by omega),
              byteAt_set_ne bytes 31 (31 + 1) v (by omega)]
            intro h
            exact hne (by omega)
          · rw [byteAt_set_ne bytes 32 31 v (by omega),
              show (31 : ℕ) + 1 = 32 from rfl, byteAt_set_eq bytes 32 v (by omega)]
            intro h
            exact hne (by omega)
      unfold protocol_unpack_game_state
      rw [if_neg (fun h => h hplayer), if_pos hckne]
      exact ⟨by simp, rfl, rfl, rfl, fun h => absurd h hi1, fun _ => rfl⟩

set_option maxRecDepth 100000 in
/-- Witness for C5: both conjuncts applied to concrete valid packets,
flipping the frame-number byte of the input packet and the position
byte of the game-state packet. -/
theorem c5_witness :
    ((encode_input packet_f32).length = 13 ∧
      byteAt (encode_input packet_f32) 0 = (protocol_init false).state.remote_player_id ∧
      u16At (encode_input packet_f32) 11 = crc16 ((encode_input packet_f32).take 11) ∧
      (9 : ℕ) ≠ byteAt (encode_input packet_f32) 5) ∧
    (protocol_unpack_input (protocol_init false).state ((encode_input packet_f32).set 5 9)
        (0, 0, 0) zero_input_buffer).1 = some unpack_error.ChecksumMismatch ∧
    (game_bytes.length = 33 ∧
      byteAt game_bytes 1 = (protocol_init false).state.remote_player_id ∧
      u16At game_bytes 31 = crc16 (game_bytes.take 31) ∧
      (9 : ℕ) ≠ byteAt game_bytes 6) ∧
    (protocol_unpack_game_state (protocol_init false).state (game_bytes.set 6 9)
        car_beyond_wall world_wall 0).2.2.2 = (protocol_init false).state := by
  refine ⟨⟨by decide, by decide, by decide, by decide⟩, ?_, ⟨by decide, by decide, by decide,
    by decide⟩, ?_⟩
  · exact (c5_single_byte_flip.1 (protocol_init false).state (encode_input packet_f32)
      (0, 0, 0) zero_input_buffer 5 9 (by decide) (by decide) (by decide) (by decide)
      (by decide) (by decide) (by decide)).2.2.2.2 (by decide)
  · exact (c5_single_byte_flip.2 (protocol_init false).state game_bytes car_beyond_wall
      world_wall 0 6 9 (by decide) (by decide) (by decide) (by decide) (by decide)
      (by decide) (by decide)).2.2.2.1

/-- Witness for C7: a fresh two-checkpoint world with the car inside
its first expected checkpoint advances the expected index to 1. -/
theorem c7_witness :
    (world_cp_fresh.current_checkpoint 0 < world_cp_fresh.checkpoint_count ∧
      physics_check_checkpoint_collision (world_cp_fresh.cars 0)
        (world_cp_fresh.checkpoints (world_cp_fresh.current_checkpoint 0)) = true) ∧
    (update_checkpoint_progress world_cp_fresh 0).current_checkpoint 0 =
      world_cp_fresh.current_checkpoint 0 + 1 :=
  ⟨⟨by decide, by decide⟩,
    ((c7_checkpoint_progress world_cp_fresh 0 (by decide) (by decide)).1 (by decide)).1⟩

end Mode7
